import Mathlib

/-!
Verification of the intellizen voicebot repository against its
natural-language specification.

The Python sources are shallowly embedded: pure post-processing becomes
Lean functions, dictionaries become association lists, external effects
(the hosted LLM, the Qdrant vector database, the Shopify REST API, Redis
and the SQL database) become explicit parameters, response values, or
request traces, and exception handling becomes `Except`/`Option` flow.
-/

/-! ## Common value types -/

/-- JSON-like value appearing in dictionaries exchanged with the Shopify
REST API (`order.get(key)` returns `None` for absent keys, embedded as
`JVal.null`). -/
inductive JVal where
  | null : JVal
  | str : String → JVal
  | num : Int → JVal
  | bool : Bool → JVal
  deriving DecidableEq, Repr

/-- Value stored in a payload field of a Qdrant point; product `tags`
are lists of strings, everything the sources match on is a string. -/
inductive PVal where
  | str : String → PVal
  | strList : List String → PVal
  deriving DecidableEq, Repr

/-- Value bound to a column of the relational `Conversations` table. -/
inductive DBVal where
  | null : DBVal
  | str : String → DBVal
  | int : Int → DBVal
  | bool : Bool → DBVal
  | time : Nat → DBVal
  deriving DecidableEq, Repr

/-- Python truthiness of an optional string (`None` and `""` are falsy),
used for `if store_name:`-style guards in the sources. -/
def optTruthy : Option String → Bool
  | none => false
  | some s => !s.isEmpty

/-- Matching a needle at the head of a haystack (character-exact). -/
def substrAt : List Char → List Char → Bool
  | [], _ => true
  | _ :: _, [] => false
  | n :: ns, h :: hs => n == h && substrAt ns hs

/-- Embedding of the Python substring test `needle in hay`. -/
def containsSub (needle hay : List Char) : Bool :=
  match hay with
  | [] => needle.isEmpty
  | _ :: rest => substrAt needle hay || containsSub needle rest

/-- String-level substring test, `needle ∈ hay` in Python. -/
def strContains (hay needle : String) : Bool :=
  containsSub needle.toList hay.toList

/-- Embedding of Python `str.strip()`: drop whitespace from both ends. -/
def pyStrip (s : String) : String :=
  ⟨((s.toList.dropWhile Char.isWhitespace).reverse.dropWhile Char.isWhitespace).reverse⟩

/-- Embedding of Python `str.lower()` (ASCII case folding, which covers
every label and phrase the sources compare against). -/
def pyLower (s : String) : String :=
  ⟨s.toList.map Char.toLower⟩

/-! ## intent_classifier.py -/

namespace IntentClassifier

/-- Source: `IntentClassifier.intents` (intent_classifier.py, lines
53-60), the fixed label set. -/
def intents : List String :=
  ["product", "order", "update_order", "cancel_order", "store_info", "general"]

/-- Source: the post-processing tail of `IntentClassifier.classify_intent`
(intent_classifier.py, lines 173-181).  The argument is the raw string
returned by the prompted model call; the code strips and lowercases it,
returns it when it is a member of `intents`, and otherwise falls back
(the inline comment says "Default to general", the code returns
`"store_info"`). -/
def classify_intent (response : String) : String :=
  let intent := pyLower (pyStrip response)
  if intents.contains intent then intent else "store_info"

/-- Entity dictionaries are embedded as association lists from keys to
string values, mirroring the JSON dictionaries the extractors return. -/
abbrev Entities := List (String × String)

/-- The five per-intent prompted LLM extraction chains of
`IntentClassifier` (each `prompt | self.llm | JsonOutputParser()`), as
oracles: a chain invocation either yields parsed entities or raises,
which the embedding records as `Except.error`. -/
structure LLMChains where
  order_chain : String → Except String Entities
  update_chain : String → Except String Entities
  cancel_chain : String → Except String Entities
  product_chain : String → Except String Entities
  store_chain : String → Except String Entities

/-- The four handwritten `re`-based helper methods of `IntentClassifier`
(`extract_order_id_regex`, `extract_email_regex`, `extract_phone_regex`,
`extract_address_info_regex`, intent_classifier.py, lines 400-484),
abstracted as match oracles: the claims under verification depend only
on which helper each extractor invokes, not on the regex internals. -/
structure RegexLib where
  order_id_regex : String → Option String
  email_regex : String → Option String
  phone_regex : String → Option String
  address_info_regex : String → Entities
  product_keywords_regex : String → List String

/-- Source: `IntentClassifier.extract_order_entities_regex`
(intent_classifier.py, lines 352-361). -/
def extract_order_entities_regex (r : RegexLib) (query : String) : Entities :=
  match r.order_id_regex query with
  | some oid => [("order_id", oid)]
  | none => []

/-- Source: `IntentClassifier.extract_update_order_entities_regex`
(intent_classifier.py, lines 363-387): order id, then email, then phone,
then the address fragments merged in. -/
def extract_update_order_entities_regex (r : RegexLib) (query : String) : Entities :=
  (match r.order_id_regex query with
   | some oid => [("order_id", oid)]
   | none => [])
  ++ (match r.email_regex query with
      | some e => [("email", e)]
      | none => [])
  ++ (match r.phone_regex query with
      | some p => [("phone", p)]
      | none => [])
  ++ r.address_info_regex query

/-- Source: `IntentClassifier.extract_cancel_order_entities_regex`
(intent_classifier.py, lines 389-398). -/
def extract_cancel_order_entities_regex (r : RegexLib) (query : String) : Entities :=
  match r.order_id_regex query with
  | some oid => [("order_id", oid)]
  | none => []

/-- Source: `IntentClassifier.extract_order_entities`
(intent_classifier.py, lines 209-234): invoke the prompted chain, fall
back to regex extraction when it raises. -/
def extract_order_entities (llm : LLMChains) (r : RegexLib) (query : String) : Entities :=
  match llm.order_chain query with
  | .ok es => es
  | .error _ => extract_order_entities_regex r query

/-- Source: `IntentClassifier.extract_update_order_entities`
(intent_classifier.py, lines 236-269). -/
def extract_update_order_entities (llm : LLMChains) (r : RegexLib) (query : String) : Entities :=
  match llm.update_chain query with
  | .ok es => es
  | .error _ => extract_update_order_entities_regex r query

/-- Source: `IntentClassifier.extract_cancel_order_entities`
(intent_classifier.py, lines 271-294). -/
def extract_cancel_order_entities (llm : LLMChains) (r : RegexLib) (query : String) : Entities :=
  match llm.cancel_chain query with
  | .ok es => es
  | .error _ => extract_cancel_order_entities_regex r query

/-- Source: `IntentClassifier.extract_product_entities`
(intent_classifier.py, lines 296-321); the fallback collects product
keywords. -/
def extract_product_entities (llm : LLMChains) (r : RegexLib) (query : String) : Entities :=
  match llm.product_chain query with
  | .ok es => es
  | .error _ => (r.product_keywords_regex query).map (fun w => ("product_keywords", w))

/-- Source: `IntentClassifier.extract_store_info_entities`
(intent_classifier.py, lines 323-345). -/
def extract_store_info_entities (llm : LLMChains) (query : String) : Entities :=
  match llm.store_chain query with
  | .ok es => es
  | .error _ => [("query_type", "store_info")]

/-- Source: `IntentClassifier.extract_basic_entities`
(intent_classifier.py, lines 347-349). -/
def extract_basic_entities (query : String) : Entities :=
  [("query", query)]

/-- Source: `IntentClassifier.extract_entities` (intent_classifier.py,
lines 183-207), the per-intent dispatch. -/
def extract_entities (llm : LLMChains) (r : RegexLib) (query intent : String) : Entities :=
  if intent = "order" then extract_order_entities llm r query
  else if intent = "update_order" then extract_update_order_entities llm r query
  else if intent = "cancel_order" then extract_cancel_order_entities llm r query
  else if intent = "product" then extract_product_entities llm r query
  else if intent = "store_info" then extract_store_info_entities llm query
  else extract_basic_entities query

end IntentClassifier

/-! ## Claim C1 -/

/-- C1: the claim says `classify_intent` falls back to the `"general"`
label on unexpected model output; the code keeps every valid label
unchanged but falls back to `"store_info"`, contradicting its own inline
comment ("Default to general if we get an unexpected response").
Evaluated at the failing input `" UNKNOWN "`: the normalized response is
not in the label set, and the classifier returns `"store_info"`, not
`"general"`. -/
theorem classify_intent_fallback_is_store_info_not_general :
    IntentClassifier.intents.contains (pyLower (pyStrip " UNKNOWN ")) = false ∧
    IntentClassifier.classify_intent " UNKNOWN " = "store_info" ∧
    IntentClassifier.classify_intent " UNKNOWN " ≠ "general" ∧
    IntentClassifier.classify_intent " Order " = "order" := by
  refine ⟨by decide, by decide, by decide, by decide⟩

/-! ## Claim C3 -/

/-- C3: for the intents `order`, `update_order` and `cancel_order`, when
the prompted LLM extraction raises (call failure or JSON-parse failure),
`extract_entities` does not propagate the exception and returns the
corresponding handwritten regex extraction: the order-id helper alone
for `order` and `cancel_order`, and the order-id, email, phone and
address-fragment helpers for `update_order`. -/
theorem extract_entities_llm_failure_falls_back_to_regex
    (llm : IntentClassifier.LLMChains) (r : IntentClassifier.RegexLib)
    (query : String) (e₁ e₂ e₃ : String)
    (ho : llm.order_chain query = .error e₁)
    (hu : llm.update_chain query = .error e₂)
    (hc : llm.cancel_chain query = .error e₃) :
    IntentClassifier.extract_entities llm r query "order" =
      (match r.order_id_regex query with
       | some oid => [("order_id", oid)]
       | none => []) ∧
    IntentClassifier.extract_entities llm r query "cancel_order" =
      (match r.order_id_regex query with
       | some oid => [("order_id", oid)]
       | none => []) ∧
    IntentClassifier.extract_entities llm r query "update_order" =
      (match r.order_id_regex query with
       | some oid => [("order_id", oid)]
       | none => [])
      ++ (match r.email_regex query with
          | some em => [("email", em)]
          | none => [])
      ++ (match r.phone_regex query with
          | some p => [("phone", p)]
          | none => [])
      ++ r.address_info_regex query := by
  refine ⟨?_, ?_, ?_⟩ <;>
    simp [IntentClassifier.extract_entities, IntentClassifier.extract_order_entities,
      IntentClassifier.extract_cancel_order_entities,
      IntentClassifier.extract_update_order_entities, ho, hu, hc,
      IntentClassifier.extract_order_entities_regex,
      IntentClassifier.extract_cancel_order_entities_regex,
      IntentClassifier.extract_update_order_entities_regex]

/-- Concrete failing-chain instance used to witness the fallback theorem. -/
def failingChains : IntentClassifier.LLMChains where
  order_chain := fun _ => .error "OutputParserException"
  update_chain := fun _ => .error "OutputParserException"
  cancel_chain := fun _ => .error "OutputParserException"
  product_chain := fun _ => .error "OutputParserException"
  store_chain := fun _ => .error "OutputParserException"

/-- Concrete regex-helper instance used to witness the fallback theorem. -/
def sampleRegexLib : IntentClassifier.RegexLib where
  order_id_regex := fun _ => some "12345"
  email_regex := fun _ => some "a@b.co"
  phone_regex := fun _ => none
  address_info_regex := fun _ => [("city", "Ahmedabad")]
  product_keywords_regex := fun _ => []

/-- Witness for the C3 theorem at a concrete query with concretely
failing chains. -/
theorem extract_entities_llm_failure_falls_back_to_regex_witness :
    IntentClassifier.extract_entities failingChains sampleRegexLib
      "update my order 12345" "update_order" =
      [("order_id", "12345"), ("email", "a@b.co"), ("city", "Ahmedabad")] := by
  have h := extract_entities_llm_failure_falls_back_to_regex failingChains sampleRegexLib
    "update my order 12345" "OutputParserException" "OutputParserException"
    "OutputParserException" rfl rfl rfl
  exact h.2.2

/-! ## shopify_handler.py -/

namespace ShopifyHandler

/-- Shopify order dictionaries, embedded as association lists of JSON
values. -/
abbrev Order := List (String × JVal)

/-- Embedding of Python `order.get(key)`: `None` (here `JVal.null`) for
absent keys. -/
def dictGet (o : Order) (key : String) : JVal :=
  (o.lookup key).getD JVal.null

/-- Key set of an order dictionary, in insertion order. -/
def keys (o : Order) : List String :=
  o.map Prod.fst

/-- Source: `required_fields` (shopify_handler.py, lines 13-18), the
field allowlist for order reads. -/
def required_fields : List String :=
  ["id", "order_number", "created_at", "updated_at", "processed_at", "financial_status",
   "fulfillment_status", "total_price", "subtotal_price", "total_tax", "currency",
   "email", "phone", "line_items", "shipping_address", "fulfillments",
   "payment_gateway_names", "total_discounts", "total_weight", "tags"]

/-- Source: the dictionary comprehension inside
`ShopifyDataCollector.get_customer_orders` (shopify_handler.py, lines
156-157): `customer_id` first, then every allowlisted field via
`order.get(key)`. -/
def filterOrder (customer_id : String) (o : Order) : Order :=
  ("customer_id", JVal.str customer_id) :: required_fields.map (fun k => (k, dictGet o k))

/-- Source: `ShopifyDataCollector.get_customer_orders`
(shopify_handler.py, lines 138-163).  The HTTP layer is abstracted:
`hasCreds` is the `_handle_auth_error` credential guard and
`resp_orders` is `response.json().get('orders', [])`; an empty order
list falls through to `return None`. -/
def get_customer_orders (hasCreds : Bool) (customer_id : String)
    (resp_orders : List Order) : Option (List Order) :=
  if !hasCreds then none
  else if resp_orders.isEmpty then none
  else some (resp_orders.map (filterOrder customer_id))

/-- Source: `ShopifyDataCollector.get_all_orders` (shopify_handler.py,
lines 165-177): the response order list is returned as is, with no
field filtering. -/
def get_all_orders (hasCreds : Bool) (resp_orders : List Order) : Option (List Order) :=
  if !hasCreds then none
  else some resp_orders

/-- Shipping-address sub-dictionary of the order-update payload.  The
source stores the `zip1` argument under the key `"province"`
(shopify_handler.py, line 266), embedded here as the `province` field. -/
structure ShippingAddress where
  address1 : Option String
  address2 : Option String
  city : Option String
  last_name : Option String
  country : Option String
  province_code : Option String
  province : Option String
  deriving DecidableEq, Repr

/-- The `update_data["order"]` payload built by
`ShopifyDataCollector.update_order` (shopify_handler.py, lines
243-266). -/
structure UpdatePayload where
  id : String
  email : Option String
  contact_email : Option String
  phone : Option String
  shipping_address : Option ShippingAddress
  deriving DecidableEq, Repr

/-- Arguments of `ShopifyDataCollector.update_order`. -/
structure UpdateArgs where
  email : Option String
  phone : Option String
  address1 : Option String
  address2 : Option String
  city : Option String
  last_name : Option String
  province_code : Option String
  country : Option String
  zip1 : Option String
  deriving DecidableEq, Repr

/-- Source: step 3 of `ShopifyDataCollector.update_order`
(shopify_handler.py, lines 243-266): each field is included under the
Python truthiness guard `if email:` etc. -/
def buildUpdatePayload (order_id : String) (a : UpdateArgs) : UpdatePayload where
  id := order_id
  email := if optTruthy a.email then a.email else none
  contact_email := if optTruthy a.email then a.email else none
  phone := if optTruthy a.phone then a.phone else none
  shipping_address :=
    if optTruthy a.address1 || optTruthy a.address2 || optTruthy a.city ||
        optTruthy a.last_name || optTruthy a.country || optTruthy a.province_code ||
        optTruthy a.zip1 then
      some { address1 := if optTruthy a.address1 then a.address1 else none
             address2 := if optTruthy a.address2 then a.address2 else none
             city := if optTruthy a.city then a.city else none
             last_name := if optTruthy a.last_name then a.last_name else none
             country := if optTruthy a.country then a.country else none
             province_code := if optTruthy a.province_code then a.province_code else none
             province := if optTruthy a.zip1 then a.zip1 else none }
    else none

/-- Source: `ShopifyDataCollector.update_order` (shopify_handler.py,
lines 196-285).  `fetched` is `response.json().get("order")` of the
initial GET (`none` for an absent key; the source also treats an empty
dictionary as "not found" via `if not order_data`), `putResponse` is the
order returned by the PUT.  The result pairs the returned order with the
PUT payload that was sent, `none` when no PUT request was issued. -/
def update_order (hasCreds : Bool) (order_id : String) (a : UpdateArgs)
    (fetched : Option Order) (putResponse : Option Order) :
    Option Order × Option UpdatePayload :=
  if !hasCreds then (none, none)
  else
    match fetched with
    | none => (none, none)
    | some od =>
      if od.isEmpty then (none, none)
      else if dictGet od "fulfillment_status" = JVal.str "fulfilled" then (none, none)
      else if dictGet od "cancelled_at" ≠ JVal.null then (none, none)
      else (putResponse, some (buildUpdatePayload order_id a))

end ShopifyHandler

/-! ## Claim C4 -/

/-- C4 counterexample: the claim says every order-reading operation,
including `get_all_orders`, restricts order keys to the allowlist; but
`get_all_orders` passes the platform response through unfiltered, so an
order carrying the non-allowlisted field `internal_note` is returned
with that field intact (and the allowlist has 20 fields, not 19). -/
theorem get_all_orders_unfiltered_counterexample :
    ShopifyHandler.get_all_orders true
        [[("id", JVal.num 1), ("internal_note", JVal.str "vip")]] =
      some [[("id", JVal.num 1), ("internal_note", JVal.str "vip")]] ∧
    "internal_note" ∈ ShopifyHandler.keys [("id", JVal.num 1), ("internal_note", JVal.str "vip")] ∧
    "internal_note" ∉ ShopifyHandler.required_fields ∧
    "internal_note" ≠ "customer_id" ∧
    ShopifyHandler.required_fields.length = 20 := by
  refine ⟨by decide, by decide, by decide, by decide, by decide⟩

/-- C4 as amended: `get_customer_orders` filters each returned order
dictionary to exactly the key `customer_id` followed by the 20-field
`required_fields` allowlist, while `get_all_orders` returns the
platform's order list unfiltered. -/
theorem order_read_field_filtering (customer_id : String)
    (resp os : List ShopifyHandler.Order)
    (h : ShopifyHandler.get_customer_orders true customer_id resp = some os) :
    (∀ o ∈ os, ShopifyHandler.keys o = "customer_id" :: ShopifyHandler.required_fields) ∧
    ShopifyHandler.required_fields.length = 20 ∧
    ShopifyHandler.get_all_orders true resp = some resp := by
  refine ⟨?_, by decide, rfl⟩
  intro o ho
  by_cases hemp : resp.isEmpty
  · simp [ShopifyHandler.get_customer_orders, hemp] at h
  · simp [ShopifyHandler.get_customer_orders, hemp] at h
    subst h
    rcases List.mem_map.mp ho with ⟨o₀, _, rfl⟩
    simp [ShopifyHandler.keys, ShopifyHandler.filterOrder, List.map_map, Function.comp_def]

/-- Witness for the amended C4 theorem at a concrete response. -/
theorem order_read_field_filtering_witness :
    ShopifyHandler.keys (ShopifyHandler.filterOrder "77" [("id", JVal.num 1)]) =
      "customer_id" :: ShopifyHandler.required_fields := by
  have h := order_read_field_filtering "77" [[("id", JVal.num 1)]]
    [ShopifyHandler.filterOrder "77" [("id", JVal.num 1)]] (by decide)
  exact h.1 (ShopifyHandler.filterOrder "77" [("id", JVal.num 1)]) (by decide)

/-! ## Claim C7 -/

/-- C7: `update_order` is atomic on refusal: when the fetched order is
fulfilled or carries a non-null `cancelled_at`, it returns `none` and
issues no PUT request; and a PUT request is issued only when the initial
fetch returned (non-empty) order data that is neither fulfilled nor
canceled. -/
theorem update_order_refusal_atomic (hasCreds : Bool) (order_id : String)
    (a : ShopifyHandler.UpdateArgs) (fetched putResponse : Option ShopifyHandler.Order) :
    (∀ od, fetched = some od →
      (ShopifyHandler.dictGet od "fulfillment_status" = JVal.str "fulfilled" ∨
        ShopifyHandler.dictGet od "cancelled_at" ≠ JVal.null) →
      ShopifyHandler.update_order hasCreds order_id a fetched putResponse = (none, none)) ∧
    (∀ payload,
      (ShopifyHandler.update_order hasCreds order_id a fetched putResponse).2 = some payload →
      ∃ od, fetched = some od ∧ od ≠ [] ∧
        ShopifyHandler.dictGet od "fulfillment_status" ≠ JVal.str "fulfilled" ∧
        ShopifyHandler.dictGet od "cancelled_at" = JVal.null) := by
  constructor
  · rintro od rfl hrefuse
    rcases hrefuse with hf | hc
    · simp [ShopifyHandler.update_order, hf]
    · by_cases hcred : hasCreds
      · by_cases hemp : od.isEmpty
        · simp [ShopifyHandler.update_order, hcred, hemp]
        · by_cases hf : ShopifyHandler.dictGet od "fulfillment_status" = JVal.str "fulfilled"
          · simp [ShopifyHandler.update_order, hcred, hemp, hf]
          · simp [ShopifyHandler.update_order, hcred, hemp, hf, hc]
      · simp [ShopifyHandler.update_order, hcred]
  · intro payload hput
    by_cases hcred : hasCreds
    · cases fetched with
      | none => simp [ShopifyHandler.update_order, hcred] at hput
      | some od =>
        by_cases hemp : od.isEmpty
        · simp [ShopifyHandler.update_order, hcred, hemp] at hput
        · by_cases hf : ShopifyHandler.dictGet od "fulfillment_status" = JVal.str "fulfilled"
          · simp [ShopifyHandler.update_order, hcred, hemp, hf] at hput
          · by_cases hc : ShopifyHandler.dictGet od "cancelled_at" = JVal.null
            · exact ⟨od, rfl, by simpa [List.isEmpty_iff] using hemp, hf, hc⟩
            · simp [ShopifyHandler.update_order, hcred, hemp, hf, hc] at hput
    · simp [ShopifyHandler.update_order, hcred] at hput

/-- Witness for the C7 theorem: a fulfilled fetched order is refused
with no PUT issued. -/
theorem update_order_refusal_atomic_witness :
    ShopifyHandler.update_order true "1001"
      ⟨some "new@b.co", none, none, none, none, none, none, none, none⟩
      (some [("fulfillment_status", JVal.str "fulfilled")])
      (some [("id", JVal.num 1001)]) = (none, none) := by
  have h := update_order_refusal_atomic true "1001"
    ⟨some "new@b.co", none, none, none, none, none, none, none, none⟩
    (some [("fulfillment_status", JVal.str "fulfilled")])
    (some [("id", JVal.num 1001)])
  exact h.1 [("fulfillment_status", JVal.str "fulfilled")] rfl (Or.inl (by decide))

/-! ## retrieved_documents.py -/

namespace Qdrant

/-- Payload of a point stored in the vector index. -/
abbrev Payload := List (String × PVal)

/-- A point of a Qdrant collection.  The embedding vector itself is
abstracted away: nearest-neighbor scoring enters the model through a
per-query scoring oracle. -/
structure QPoint where
  id : Nat
  payload : Payload
  deriving DecidableEq, Repr

/-- Payload field access, `point.payload.get(key)`. -/
def payloadGet (p : Payload) (key : String) : Option PVal :=
  p.lookup key

/-- Payload field access with a string default,
`point.payload.get(key, "")`. -/
def payloadStr (p : Payload) (key : String) : String :=
  match p.lookup key with
  | some (.str s) => s
  | _ => ""

/-- Semantics of `qdrant_models.MatchValue`: equality against the stored
value, where a match against a list-valued field (the product `tags`)
holds when the value is an element of the list. -/
def pvalMatches (stored : Option PVal) (v : PVal) : Bool :=
  match stored, v with
  | some (.str s), .str t => s == t
  | some (.strList l), .str t => l.contains t
  | some (.strList l), .strList m => l == m
  | some (.str _), .strList _ => false
  | none, _ => false

/-- Filter conditions built by the sources: a `FieldCondition` with a
`MatchValue`, or the nested `Filter(should=[FieldCondition...])` used
for the tag OR-filter (retrieved_documents.py, lines 252-267), which
holds when at least one listed field condition holds. -/
inductive QCondition where
  | fieldMatch (key : String) (value : PVal)
  | orFields (conds : List (String × PVal))
  deriving DecidableEq, Repr

/-- A top-level `qdrant_models.Filter(must=...)` as built by the
sources. -/
structure QFilter where
  must : List QCondition
  deriving DecidableEq, Repr

/-- Truth of one condition on a payload. -/
def condHolds (p : Payload) : QCondition → Bool
  | .fieldMatch k v => pvalMatches (payloadGet p k) v
  | .orFields cs => cs.any (fun kv => pvalMatches (payloadGet p kv.1) kv.2)

/-- Truth of a `must` filter: every condition holds. -/
def filterHolds (f : QFilter) (p : Payload) : Bool :=
  f.must.all (condHolds p)

/-- Truth of an optional filter (`query_filter=None` constrains
nothing). -/
def optFilterHolds : Option QFilter → Payload → Bool
  | none, _ => true
  | some f, p => filterHolds f p

/-- Descending insertion by score, the ordering step of nearest-neighbor
search. -/
def insertByScore (score : QPoint → Rat) (x : QPoint) : List QPoint → List QPoint
  | [] => [x]
  | y :: ys => if score y ≤ score x then x :: y :: ys else y :: insertByScore score x ys

/-- Sort a point list by descending score. -/
def sortByScore (score : QPoint → Rat) : List QPoint → List QPoint
  | [] => []
  | x :: xs => insertByScore score x (sortByScore score xs)

/-- The state of the Qdrant service: collections by name. -/
abbrev QdrantState := List (String × List QPoint)

/-- Points of a named collection. -/
def getCollection (st : QdrantState) (name : String) : List QPoint :=
  (st.lookup name).getD []

/-- Requests a `QdrantClient` can issue.  The searcher under
verification only ever issues the first two; `upsert` and
`deletePoints` exist so that read-onlyness is a statement, not a
tautology. -/
inductive QRequest where
  | search (collection : String) (limit : Nat) (score_threshold : Option Rat)
      (filt : Option QFilter)
  | scroll (collection : String) (limit : Nat) (offset : Nat) (filt : Option QFilter)
  | upsert (collection : String) (points : List QPoint)
  | deletePoints (collection : String) (ids : List Nat)
  deriving DecidableEq, Repr

/-- Whether a request only reads the index. -/
def isReadRequest : QRequest → Bool
  | .search .. => true
  | .scroll .. => true
  | .upsert .. => false
  | .deletePoints .. => false

/-- Effect of a request on the service state: searches and scrolls read,
upserts append, deletes remove. -/
def applyRequest (st : QdrantState) : QRequest → QdrantState
  | .search .. => st
  | .scroll .. => st
  | .upsert c pts => st.map (fun e => if e.1 == c then (e.1, e.2 ++ pts) else e)
  | .deletePoints c ids =>
      st.map (fun e => if e.1 == c then (e.1, e.2.filter (fun p => !ids.contains p.id)) else e)

/-- Semantics of `qdrant_client.search`: the filter-satisfying points
whose score clears the threshold (when one is given), best first, top
`limit`. -/
def execSearch (st : QdrantState) (collection : String) (score : QPoint → Rat)
    (limit : Nat) (score_threshold : Option Rat) (filt : Option QFilter) : List QPoint :=
  let eligible := (getCollection st collection).filter
    (fun p => optFilterHolds filt p.payload &&
      (match score_threshold with
       | some t => decide (t ≤ score p)
       | none => true))
  (sortByScore score eligible).take limit

/-- Semantics of `qdrant_client.scroll`: one page of the
filter-satisfying points plus the next page offset (`none` when
exhausted). -/
def execScroll (st : QdrantState) (collection : String) (filt : Option QFilter)
    (offset limit : Nat) : List QPoint × Option Nat :=
  let matching := (getCollection st collection).filter (fun p => optFilterHolds filt p.payload)
  ((matching.drop offset).take limit,
   if offset + limit < matching.length then some (offset + limit) else none)

/-- Collection names held by a `QdrantSearcher`
(retrieved_documents.py, lines 14-26). -/
structure QdrantSearcher where
  document_collection : String
  product_collection : String
  deriving DecidableEq, Repr

/-- Source: the filter construction of `QdrantSearcher.search_documents`
(retrieved_documents.py, lines 129-161): optional equality conditions
for store, type and source under Python truthiness, and no filter at
all when none are given. -/
def buildDocFilter (store_name doc_type source : Option String) : Option QFilter :=
  let conds :=
    (if optTruthy store_name then [QCondition.fieldMatch "store" (.str (store_name.getD ""))] else [])
    ++ (if optTruthy doc_type then [QCondition.fieldMatch "type" (.str (doc_type.getD ""))] else [])
    ++ (if optTruthy source then [QCondition.fieldMatch "source" (.str (source.getD ""))] else [])
  if conds.isEmpty then none else some ⟨conds⟩

/-- A formatted document search result (retrieved_documents.py, lines
172-182): id, score, text, and the payload minus the text as
metadata. -/
structure DocHit where
  id : Nat
  score : Rat
  text : String
  metadata : Payload
  deriving DecidableEq, Repr

/-- Formatting of one document hit. -/
def formatDoc (score : Rat) (p : QPoint) : DocHit where
  id := p.id
  score := score
  text := payloadStr p.payload "text"
  metadata := p.payload.filter (fun kv => kv.1 != "text")

/-- Source: `QdrantSearcher.search_documents` (retrieved_documents.py,
lines 104-188).  `embedScore` is the embedding-plus-cosine-similarity
oracle of the vector service; the second component is the trace of
client requests issued. -/
def search_documents (qs : QdrantSearcher) (st : QdrantState)
    (embedScore : String → QPoint → Rat) (query : String)
    (store_name doc_type source : Option String)
    (limit : Nat) (score_threshold : Rat) : List DocHit × List QRequest :=
  let score := embedScore query
  let filt := buildDocFilter store_name doc_type source
  let res := execSearch st qs.document_collection score limit (some score_threshold) filt
  (res.map (fun p => formatDoc (score p) p),
   [QRequest.search qs.document_collection limit (some score_threshold) filt])

/-- Source: the filter construction of `QdrantSearcher.search_products`
(retrieved_documents.py, lines 217-272): the mandatory
`type = "shopify_product"` condition, optional store, product-type and
vendor equality conditions, and the OR-filter over the given tags. -/
def buildProductFilter (store_name product_type vendor : Option String)
    (tags : Option (List String)) : QFilter where
  must :=
    [QCondition.fieldMatch "type" (.str "shopify_product")]
    ++ (if optTruthy store_name then [QCondition.fieldMatch "store" (.str (store_name.getD ""))] else [])
    ++ (if optTruthy product_type then [QCondition.fieldMatch "product_type" (.str (product_type.getD ""))] else [])
    ++ (if optTruthy vendor then [QCondition.fieldMatch "vendor" (.str (vendor.getD ""))] else [])
    ++ (match tags with
        | some ts => if 0 < ts.length then [QCondition.orFields (ts.map (fun t => ("tags", PVal.str t)))] else []
        | none => [])

/-- A formatted product search result (retrieved_documents.py, lines
283-295). -/
structure ProductHit where
  id : Nat
  score : Rat
  title : String
  product_id : String
  vendor : String
  product_type : String
  tags : PVal
  store : String
  deriving DecidableEq, Repr

/-- Formatting of one product hit; `tags` defaults to the empty list as
in `payload.get("tags", [])`. -/
def formatProduct (score : Rat) (p : QPoint) : ProductHit where
  id := p.id
  score := score
  title := payloadStr p.payload "title"
  product_id := payloadStr p.payload "product_id"
  vendor := payloadStr p.payload "vendor"
  product_type := payloadStr p.payload "product_type"
  tags := (p.payload.lookup "tags").getD (.strList [])
  store := payloadStr p.payload "store"

/-- Source: `QdrantSearcher.search_products` (retrieved_documents.py,
lines 190-301). -/
def search_products (qs : QdrantSearcher) (st : QdrantState)
    (embedScore : String → QPoint → Rat) (query : String)
    (store_name product_type vendor : Option String) (tags : Option (List String))
    (limit : Nat) (score_threshold : Rat) : List ProductHit × List QRequest :=
  let score := embedScore query
  let filt := buildProductFilter store_name product_type vendor tags
  let res := execSearch st qs.product_collection score limit (some score_threshold) (some filt)
  (res.map (fun p => formatProduct (score p) p),
   [QRequest.search qs.product_collection limit (some score_threshold) (some filt)])

/-- Source: `QdrantSearcher.search_all` (retrieved_documents.py, lines
303-329): both searches with the same query, store filter, limit and
threshold. -/
def search_all (qs : QdrantSearcher) (st : QdrantState)
    (embedScore : String → QPoint → Rat) (query : String)
    (store_name : Option String) (limit : Nat) (score_threshold : Rat) :
    (List DocHit × List ProductHit) × List QRequest :=
  let (docs, t₁) := search_documents qs st embedScore query store_name none none limit score_threshold
  let (prods, t₂) := search_products qs st embedScore query store_name none none none limit score_threshold
  ((docs, prods), t₁ ++ t₂)

/-- Result of `QdrantSearcher.get_store_details`: either a payload that
carries explicit `store_details`, or a best-effort summary compiled
from the most relevant documents. -/
inductive StoreDetailsResult where
  | found (store_name store_details source : String)
  | compiled (store_name store_details text_sample note : String)
  deriving DecidableEq, Repr

/-- Source: `QdrantSearcher.get_store_details` (retrieved_documents.py,
lines 32-102): a 100-point scroll filtered by store; when no scrolled
point has `store_details`, a similarity search over the same filter
compiles a sample from up to five documents. -/
def get_store_details (qs : QdrantSearcher) (st : QdrantState)
    (embedScore : String → QPoint → Rat) (store_name : String) :
    Option StoreDetailsResult × List QRequest :=
  let filt := some (QFilter.mk [QCondition.fieldMatch "store" (.str store_name)])
  let scrollReq := QRequest.scroll qs.document_collection 100 0 filt
  let points := (execScroll st qs.document_collection filt 0 100).1
  match points.find? (fun p => (p.payload.lookup "store_details").isSome) with
  | some p =>
    (some (.found store_name (payloadStr p.payload "store_details")
        (match p.payload.lookup "source" with
         | some (.str s) => s
         | _ => "Unknown")),
     [scrollReq])
  | none =>
    if points.isEmpty then (none, [scrollReq])
    else
      let score := embedScore "store information description about"
      let results := execSearch st qs.document_collection score 5 none filt
      let searchReq := QRequest.search qs.document_collection 5 none filt
      if results.isEmpty then (none, [scrollReq, searchReq])
      else
        let combined := String.intercalate "\n\n"
          (results.map (fun p => (payloadStr p.payload "text").take 1000))
        (some (.compiled store_name
            ("Store information compiled from " ++ toString results.length ++ " documents")
            (combined.take 500 ++ "...")
            "No explicit store_details found; this is compiled from relevant documents"),
         [scrollReq, searchReq])

/-- Source: `QdrantSearcher.search_by_metadata` (retrieved_documents.py,
lines 331-381): one filtered scroll over the chosen collection
(defaulting to the document collection), formatted as id plus
payload. -/
def search_by_metadata (qs : QdrantSearcher) (st : QdrantState)
    (field : String) (value : PVal) (collection_name : Option String) (limit : Nat) :
    List (Nat × Payload) × List QRequest :=
  let collection := if optTruthy collection_name then collection_name.getD "" else qs.document_collection
  let filt := some (QFilter.mk [QCondition.fieldMatch field value])
  let points := (execScroll st collection filt 0 limit).1
  (points.map (fun p => (p.id, p.payload)), [QRequest.scroll collection limit 0 filt])

/-- Ascending insertion for strings. -/
def insertStr (x : String) : List String → List String
  | [] => [x]
  | y :: ys => if x ≤ y then x :: y :: ys else y :: insertStr x ys

/-- Ascending string sort, `sorted(...)`. -/
def sortStrings : List String → List String
  | [] => []
  | x :: xs => insertStr x (sortStrings xs)

/-- Source: the scroll loop of `QdrantSearcher.get_all_store_names`
(retrieved_documents.py, lines 390-413): unfiltered 1000-point pages,
collecting the `store` payload value of every point, until the next
page offset comes back `None`. -/
def storeNamesLoop (st : QdrantState) (coll : String) (offset : Nat) :
    List String × List QRequest :=
  let page := ((getCollection st coll).drop offset).take 1000
  let names := page.filterMap (fun p =>
    match p.payload.lookup "store" with
    | some (.str s) => some s
    | _ => none)
  if h : offset + 1000 < (getCollection st coll).length then
    let rest := storeNamesLoop st coll (offset + 1000)
    (names ++ rest.1, QRequest.scroll coll 1000 offset none :: rest.2)
  else
    (names, [QRequest.scroll coll 1000 offset none])
termination_by (getCollection st coll).length - offset
decreasing_by simp_wf; omega

/-- Source: `QdrantSearcher.get_all_store_names` (retrieved_documents.py,
lines 383-417): the sorted deduplicated store names found by the scroll
loop. -/
def get_all_store_names (qs : QdrantSearcher) (st : QdrantState) :
    List String × List QRequest :=
  let (names, tr) := storeNamesLoop st qs.document_collection 0
  (sortStrings names.dedup, tr)

end Qdrant

/-! ## Search lemmas -/

namespace Qdrant

/-- Insertion keeps exactly the inserted element and the old elements. -/
theorem mem_insertByScore (score : QPoint → Rat) (x a : QPoint) (l : List QPoint) :
    a ∈ insertByScore score x l ↔ a = x ∨ a ∈ l := by
  induction l with
  | nil => simp [insertByScore]
  | cons y ys ih =>
    by_cases h : score y ≤ score x
    · simp [insertByScore, h]
    · simp [insertByScore, h, ih]
      tauto

/-- Sorting by score is a permutation at the membership level. -/
theorem mem_sortByScore (score : QPoint → Rat) (a : QPoint) (l : List QPoint) :
    a ∈ sortByScore score l ↔ a ∈ l := by
  induction l with
  | nil => simp [sortByScore]
  | cons y ys ih => simp [sortByScore, mem_insertByScore, ih]

/-- A search returns at most `limit` points. -/
theorem length_execSearch (st : QdrantState) (collection : String)
    (score : QPoint → Rat) (limit : Nat) (score_threshold : Option Rat)
    (filt : Option QFilter) :
    (execSearch st collection score limit score_threshold filt).length ≤ limit := by
  simp [execSearch]

/-- Every searched point comes from the collection, satisfies the
filter, and clears the threshold. -/
theorem mem_execSearch (st : QdrantState) (collection : String)
    (score : QPoint → Rat) (limit : Nat) (score_threshold : Option Rat)
    (filt : Option QFilter) (p : QPoint)
    (h : p ∈ execSearch st collection score limit score_threshold filt) :
    p ∈ getCollection st collection ∧ optFilterHolds filt p.payload = true ∧
      ∀ t, score_threshold = some t → t ≤ score p := by
  have h₁ := List.mem_of_mem_take h
  rw [mem_sortByScore] at h₁
  have h₂ := List.mem_filter.mp h₁
  refine ⟨h₂.1, ?_, ?_⟩
  · have := h₂.2
    exact (Bool.and_eq_true _ _ |>.mp this).1
  · intro t ht
    have := (Bool.and_eq_true _ _ |>.mp h₂.2).2
    rw [ht] at this
    simpa using this

/-- Tag OR-filter: when it holds, some given tag matches the payload. -/
theorem orFields_tags (ts : List String) (p : Payload)
    (h : condHolds p (QCondition.orFields (ts.map (fun t => ("tags", PVal.str t)))) = true) :
    ∃ t ∈ ts, pvalMatches (payloadGet p "tags") (.str t) = true := by
  simp only [condHolds, List.any_eq_true] at h
  rcases h with ⟨kv, hkv, hm⟩
  rcases List.mem_map.mp hkv with ⟨t, ht, rfl⟩
  exact ⟨t, ht, hm⟩

/-- Decomposition of the document filter built by `search_documents`. -/
theorem docFilter_spec (store_name doc_type source : Option String) (p : Payload)
    (h : optFilterHolds (buildDocFilter store_name doc_type source) p = true) :
    (optTruthy store_name = true →
      pvalMatches (payloadGet p "store") (.str (store_name.getD "")) = true) ∧
    (optTruthy doc_type = true →
      pvalMatches (payloadGet p "type") (.str (doc_type.getD "")) = true) ∧
    (optTruthy source = true →
      pvalMatches (payloadGet p "source") (.str (source.getD "")) = true) := by
  by_cases h₁ : optTruthy store_name <;> by_cases h₂ : optTruthy doc_type <;>
    by_cases h₃ : optTruthy source <;>
      simp [buildDocFilter, h₁, h₂, h₃, optFilterHolds, filterHolds, condHolds] at h ⊢ <;>
      tauto

/-- Decomposition of the product filter built by `search_products`. -/
theorem productFilter_spec (store_name product_type vendor : Option String)
    (tags : Option (List String)) (p : Payload)
    (h : filterHolds (buildProductFilter store_name product_type vendor tags) p = true) :
    pvalMatches (payloadGet p "type") (.str "shopify_product") = true ∧
    (optTruthy store_name = true →
      pvalMatches (payloadGet p "store") (.str (store_name.getD "")) = true) ∧
    (optTruthy product_type = true →
      pvalMatches (payloadGet p "product_type") (.str (product_type.getD "")) = true) ∧
    (optTruthy vendor = true →
      pvalMatches (payloadGet p "vendor") (.str (vendor.getD "")) = true) ∧
    (∀ ts, tags = some ts → ts ≠ [] →
      ∃ t ∈ ts, pvalMatches (payloadGet p "tags") (.str t) = true) := by
  rw [filterHolds, List.all_eq_true] at h
  refine ⟨?_, ?_, ?_, ?_, ?_⟩
  · have hm := h (QCondition.fieldMatch "type" (.str "shopify_product"))
      (by simp [buildProductFilter])
    simpa [condHolds] using hm
  · intro ht
    have hm := h (QCondition.fieldMatch "store" (.str (store_name.getD "")))
      (by simp [buildProductFilter, ht])
    simpa [condHolds] using hm
  · intro ht
    have hm := h (QCondition.fieldMatch "product_type" (.str (product_type.getD "")))
      (by simp [buildProductFilter, ht])
    simpa [condHolds] using hm
  · intro ht
    have hm := h (QCondition.fieldMatch "vendor" (.str (vendor.getD "")))
      (by simp [buildProductFilter, ht])
    simpa [condHolds] using hm
  · intro ts hts hne
    have hlen : 0 < ts.length := List.length_pos.mpr hne
    have hm := h (QCondition.orFields (ts.map (fun t => ("tags", PVal.str t))))
      (by simp [buildProductFilter, hts, hlen])
    exact orFields_tags ts p hm

end Qdrant

/-! ## Claim C5 -/

/-- C5: product search returns at most `limit` hits, each formatted from
a collection point whose payload satisfies the mandatory
`type = "shopify_product"` equality, the optional store, product-type
and vendor equalities when those arguments are given, and the OR-filter
over the given tags, with similarity score at least `score_threshold`;
document search analogously enforces the optional store, type and
source equalities with no mandatory condition (an empty argument set
builds no filter at all). -/
theorem search_results_filtered_thresholded_limited
    (qs : Qdrant.QdrantSearcher) (st : Qdrant.QdrantState)
    (embedScore : String → Qdrant.QPoint → Rat) (pquery dquery : String)
    (store_name product_type vendor : Option String) (tags : Option (List String))
    (dstore doc_type source : Option String)
    (plimit dlimit : Nat) (pthr dthr : Rat) :
    (Qdrant.search_products qs st embedScore pquery store_name product_type vendor tags
        plimit pthr).1.length ≤ plimit ∧
    (∀ hit ∈ (Qdrant.search_products qs st embedScore pquery store_name product_type vendor
        tags plimit pthr).1,
      ∃ p ∈ Qdrant.getCollection st qs.product_collection,
        hit = Qdrant.formatProduct (embedScore pquery p) p ∧
        pthr ≤ embedScore pquery p ∧
        Qdrant.pvalMatches (Qdrant.payloadGet p.payload "type") (.str "shopify_product") = true ∧
        (optTruthy store_name = true →
          Qdrant.pvalMatches (Qdrant.payloadGet p.payload "store")
            (.str (store_name.getD "")) = true) ∧
        (optTruthy product_type = true →
          Qdrant.pvalMatches (Qdrant.payloadGet p.payload "product_type")
            (.str (product_type.getD "")) = true) ∧
        (optTruthy vendor = true →
          Qdrant.pvalMatches (Qdrant.payloadGet p.payload "vendor")
            (.str (vendor.getD "")) = true) ∧
        (∀ ts, tags = some ts → ts ≠ [] →
          ∃ t ∈ ts, Qdrant.pvalMatches (Qdrant.payloadGet p.payload "tags")
            (.str t) = true)) ∧
    (Qdrant.search_documents qs st embedScore dquery dstore doc_type source
        dlimit dthr).1.length ≤ dlimit ∧
    (∀ hit ∈ (Qdrant.search_documents qs st embedScore dquery dstore doc_type source
        dlimit dthr).1,
      ∃ p ∈ Qdrant.getCollection st qs.document_collection,
        hit = Qdrant.formatDoc (embedScore dquery p) p ∧
        dthr ≤ embedScore dquery p ∧
        (optTruthy dstore = true →
          Qdrant.pvalMatches (Qdrant.payloadGet p.payload "store")
            (.str (dstore.getD "")) = true) ∧
        (optTruthy doc_type = true →
          Qdrant.pvalMatches (Qdrant.payloadGet p.payload "type")
            (.str (doc_type.getD "")) = true) ∧
        (optTruthy source = true →
          Qdrant.pvalMatches (Qdrant.payloadGet p.payload "source")
            (.str (source.getD "")) = true)) ∧
    Qdrant.buildDocFilter none none none = none := by
  refine ⟨?_, ?_, ?_, ?_, by decide⟩
  · simpa [Qdrant.search_products] using
      Qdrant.length_execSearch st qs.product_collection (embedScore pquery) plimit
        (some pthr) (some (Qdrant.buildProductFilter store_name product_type vendor tags))
  · intro hit hhit
    simp only [Qdrant.search_products, List.mem_map] at hhit
    rcases hhit with ⟨p, hp, rfl⟩
    have hm := Qdrant.mem_execSearch st qs.product_collection (embedScore pquery) plimit
      (some pthr) (some (Qdrant.buildProductFilter store_name product_type vendor tags)) p hp
    rcases hm with ⟨hcol, hfilt, hthr⟩
    have hf := Qdrant.productFilter_spec store_name product_type vendor tags p.payload
      (by simpa [Qdrant.optFilterHolds] using hfilt)
    exact ⟨p, hcol, rfl, hthr pthr rfl, hf.1, hf.2.1, hf.2.2.1, hf.2.2.2.1, hf.2.2.2.2⟩
  · simpa [Qdrant.search_documents] using
      Qdrant.length_execSearch st qs.document_collection (embedScore dquery) dlimit
        (some dthr) (Qdrant.buildDocFilter dstore doc_type source)
  · intro hit hhit
    simp only [Qdrant.search_documents, List.mem_map] at hhit
    rcases hhit with ⟨p, hp, rfl⟩
    have hm := Qdrant.mem_execSearch st qs.document_collection (embedScore dquery) dlimit
      (some dthr) (Qdrant.buildDocFilter dstore doc_type source) p hp
    rcases hm with ⟨hcol, hfilt, hthr⟩
    have hf := Qdrant.docFilter_spec dstore doc_type source p.payload hfilt
    exact ⟨p, hcol, rfl, hthr dthr rfl, hf.1, hf.2.1, hf.2.2⟩

/-- Sample point used to witness the search theorem. -/
def samplePoint : Qdrant.QPoint where
  id := 1
  payload := [("type", PVal.str "shopify_product"), ("store", PVal.str "acme"),
    ("title", PVal.str "Blue Shirt"), ("tags", PVal.strList ["summer", "cotton"])]

/-- Sample index holding the one product point. -/
def sampleState : Qdrant.QdrantState :=
  [("products", [samplePoint]), ("document_store", [])]

/-- Witness for the C5 theorem: a concrete hit of a concrete filtered
search traces back to a collection point that satisfies every filter
condition and the threshold. -/
theorem search_results_filtered_thresholded_limited_witness :
    ∃ p ∈ Qdrant.getCollection sampleState "products",
      Qdrant.formatProduct 1 samplePoint = Qdrant.formatProduct ((fun _ _ => (1 : Rat)) "shirt" p) p ∧
      (0 : Rat) ≤ (fun _ _ => (1 : Rat)) "shirt" p ∧
      Qdrant.pvalMatches (Qdrant.payloadGet p.payload "type") (.str "shopify_product") = true ∧
      (optTruthy (some "acme") = true →
        Qdrant.pvalMatches (Qdrant.payloadGet p.payload "store")
          (.str ((some "acme").getD "")) = true) ∧
      (optTruthy none = true →
        Qdrant.pvalMatches (Qdrant.payloadGet p.payload "product_type")
          (.str ((none : Option String).getD "")) = true) ∧
      (optTruthy none = true →
        Qdrant.pvalMatches (Qdrant.payloadGet p.payload "vendor")
          (.str ((none : Option String).getD "")) = true) ∧
      (∀ ts, (some ["summer"] : Option (List String)) = some ts → ts ≠ [] →
        ∃ t ∈ ts, Qdrant.pvalMatches (Qdrant.payloadGet p.payload "tags")
          (.str t) = true) := by
  have h := search_results_filtered_thresholded_limited ⟨"document_store", "products"⟩
    sampleState (fun _ _ => (1 : Rat)) "shirt" "policies"
    (some "acme") none none (some ["summer"]) none none none 3 5 0 0
  exact h.2.1 (Qdrant.formatProduct 1 samplePoint) (by decide)

/-! ## Claim C9 trace lemmas -/

namespace Qdrant

/-- A trace of read requests leaves the service state unchanged. -/
theorem foldl_applyRequest_of_reads (st : QdrantState) (tr : List QRequest)
    (h : ∀ r ∈ tr, isReadRequest r = true) : tr.foldl applyRequest st = st := by
  induction tr with
  | nil => rfl
  | cons r rest ih =>
    have hr := h r (List.mem_cons_self r rest)
    have hrest := fun x hx => h x (List.mem_cons_of_mem r hx)
    cases r with
    | search c l t f => simpa [applyRequest] using ih hrest
    | scroll c l o f => simpa [applyRequest] using ih hrest
    | upsert c pts => simp [isReadRequest] at hr
    | deletePoints c ids => simp [isReadRequest] at hr

/-- Every request emitted by the store-name scroll loop is a scroll. -/
theorem storeNamesLoop_reads (st : QdrantState) (coll : String) : ∀ (fuel offset : Nat),
    (getCollection st coll).length - offset ≤ fuel →
    ∀ r ∈ (storeNamesLoop st coll offset).2, isReadRequest r = true := by
  intro fuel
  induction fuel with
  | zero =>
    intro offset hle r hr
    rw [storeNamesLoop] at hr
    have hno : ¬ (offset + 1000 < (getCollection st coll).length) := by omega
    simp [hno] at hr
    subst hr
    rfl
  | succ n ih =>
    intro offset hle r hr
    rw [storeNamesLoop] at hr
    by_cases hlt : offset + 1000 < (getCollection st coll).length
    · simp [hlt] at hr
      rcases hr with rfl | hr
      · rfl
      · exact ih (offset + 1000) (by omega) r hr
    · simp [hlt] at hr
      subst hr
      rfl

/-- Every request emitted by `get_store_details` is a scroll or a
search. -/
theorem get_store_details_reads (qs : QdrantSearcher) (st : QdrantState)
    (embedScore : String → QPoint → Rat) (store_name : String) :
    ∀ r ∈ (get_store_details qs st embedScore store_name).2, isReadRequest r = true := by
  intro r hr
  rw [get_store_details] at hr
  simp only at hr
  split at hr
  · simp at hr
    subst hr
    rfl
  · split at hr
    · simp at hr
      subst hr
      rfl
    · split at hr
      · simp at hr
        rcases hr with rfl | rfl <;> rfl
      · simp at hr
        rcases hr with rfl | rfl <;> rfl

end Qdrant

/-! ## Claim C9 -/

/-- C9: call-time retrieval is read-only: every client request issued by
`search_documents`, `search_products`, `search_all`,
`get_store_details`, `search_by_metadata` and `get_all_store_names` is
a search or scroll read, and replaying any of these traces against the
index state leaves it unchanged. -/
theorem qdrant_retrieval_read_only
    (qs : Qdrant.QdrantSearcher) (st : Qdrant.QdrantState)
    (embedScore : String → Qdrant.QPoint → Rat)
    (dquery pquery aquery sname : String)
    (store_name doc_type source product_type vendor astore : Option String)
    (tags : Option (List String)) (field : String) (value : PVal)
    (collection_name : Option String) (dlimit plimit alimit mlimit : Nat)
    (dthr pthr athr : Rat) :
    ((∀ r ∈ (Qdrant.search_documents qs st embedScore dquery store_name doc_type source
        dlimit dthr).2, Qdrant.isReadRequest r = true) ∧
      (Qdrant.search_documents qs st embedScore dquery store_name doc_type source
        dlimit dthr).2.foldl Qdrant.applyRequest st = st) ∧
    ((∀ r ∈ (Qdrant.search_products qs st embedScore pquery store_name product_type vendor
        tags plimit pthr).2, Qdrant.isReadRequest r = true) ∧
      (Qdrant.search_products qs st embedScore pquery store_name product_type vendor
        tags plimit pthr).2.foldl Qdrant.applyRequest st = st) ∧
    ((∀ r ∈ (Qdrant.search_all qs st embedScore aquery astore alimit athr).2,
        Qdrant.isReadRequest r = true) ∧
      (Qdrant.search_all qs st embedScore aquery astore alimit athr).2.foldl
        Qdrant.applyRequest st = st) ∧
    ((∀ r ∈ (Qdrant.get_store_details qs st embedScore sname).2,
        Qdrant.isReadRequest r = true) ∧
      (Qdrant.get_store_details qs st embedScore sname).2.foldl
        Qdrant.applyRequest st = st) ∧
    ((∀ r ∈ (Qdrant.search_by_metadata qs st field value collection_name mlimit).2,
        Qdrant.isReadRequest r = true) ∧
      (Qdrant.search_by_metadata qs st field value collection_name mlimit).2.foldl
        Qdrant.applyRequest st = st) ∧
    ((∀ r ∈ (Qdrant.get_all_store_names qs st).2, Qdrant.isReadRequest r = true) ∧
      (Qdrant.get_all_store_names qs st).2.foldl Qdrant.applyRequest st = st) := by
  have hdocs : ∀ r ∈ (Qdrant.search_documents qs st embedScore dquery store_name doc_type
      source dlimit dthr).2, Qdrant.isReadRequest r = true := by
    intro r hr
    simp [Qdrant.search_documents] at hr
    subst hr
    rfl
  have hprods : ∀ r ∈ (Qdrant.search_products qs st embedScore pquery store_name
      product_type vendor tags plimit pthr).2, Qdrant.isReadRequest r = true := by
    intro r hr
    simp [Qdrant.search_products] at hr
    subst hr
    rfl
  have hall : ∀ r ∈ (Qdrant.search_all qs st embedScore aquery astore alimit athr).2,
      Qdrant.isReadRequest r = true := by
    intro r hr
    simp [Qdrant.search_all, Qdrant.search_documents, Qdrant.search_products] at hr
    rcases hr with rfl | rfl <;> rfl
  have hdetails := Qdrant.get_store_details_reads qs st embedScore sname
  have hmeta : ∀ r ∈ (Qdrant.search_by_metadata qs st field value collection_name mlimit).2,
      Qdrant.isReadRequest r = true := by
    intro r hr
    simp [Qdrant.search_by_metadata] at hr
    subst hr
    rfl
  have hnames : ∀ r ∈ (Qdrant.get_all_store_names qs st).2,
      Qdrant.isReadRequest r = true := by
    intro r hr
    simp only [Qdrant.get_all_store_names] at hr
    exact Qdrant.storeNamesLoop_reads st qs.document_collection
      (Qdrant.getCollection st qs.document_collection).length 0 (by omega) r hr
  exact ⟨⟨hdocs, Qdrant.foldl_applyRequest_of_reads st _ hdocs⟩,
    ⟨hprods, Qdrant.foldl_applyRequest_of_reads st _ hprods⟩,
    ⟨hall, Qdrant.foldl_applyRequest_of_reads st _ hall⟩,
    ⟨hdetails, Qdrant.foldl_applyRequest_of_reads st _ hdetails⟩,
    ⟨hmeta, Qdrant.foldl_applyRequest_of_reads st _ hmeta⟩,
    ⟨hnames, Qdrant.foldl_applyRequest_of_reads st _ hnames⟩⟩

/-- Witness for the C9 theorem: the one request a concrete document
search issues is a read. -/
theorem qdrant_retrieval_read_only_witness :
    Qdrant.isReadRequest (Qdrant.QRequest.search "document_store" 5 (some 0)
      (Qdrant.buildDocFilter none none none)) = true := by
  have h := qdrant_retrieval_read_only ⟨"document_store", "products"⟩ sampleState
    (fun _ _ => (1 : Rat)) "q" "p" "a" "s" none none none none none none none
    "f" (PVal.str "v") none 5 5 5 5 0 0 0
  exact h.1.1 _ (by simp [Qdrant.search_documents])

/-! ## intellizen_voicebot2.py -/

namespace Voicebot

/-- The store profile held in the module-level globals of
intellizen_voicebot2.py (lines 40-43). -/
structure StoreProfile where
  store_name : Option String
  store_details : Option String
  shopify_access_token : Option String
  shopify_base_url : Option String
  deriving DecidableEq, Repr

/-- Source: `get_store_from_redis` (intellizen_voicebot2.py, lines
122-144).  `redis` is the `hgetall` oracle (an empty hash for an
unknown key); a falsy phone number or an empty hash yields the all-null
profile, exactly as the source's early returns do. -/
def get_store_from_redis (redis : String → List (String × String))
    (phone_number : Option String) : StoreProfile :=
  match phone_number with
  | none => ⟨none, none, none, none⟩
  | some phone =>
    if phone.isEmpty then ⟨none, none, none, none⟩
    else
      let store_data := redis ("store:" ++ phone)
      if store_data.isEmpty then ⟨none, none, none, none⟩
      else
        ⟨store_data.lookup "store_name", store_data.lookup "store_details",
         store_data.lookup "shopify_access_token", store_data.lookup "shopify_base_url"⟩

/-- The per-call session state of `entrypoint`
(intellizen_voicebot2.py, lines 713-719) together with the store-profile
globals. -/
structure SessionState where
  profile : StoreProfile
  called_number : Option String
  caller_number : Option String
  conversation_log : List String
  detected_intent : Option String
  escalation_requested : Bool
  deriving DecidableEq, Repr

/-- Session state at call start: empty log, no detected intent, no
escalation, no profile looked up yet. -/
def initialSession : SessionState where
  profile := ⟨none, none, none, none⟩
  called_number := none
  caller_number := none
  conversation_log := []
  detected_intent := none
  escalation_requested := false

/-- Source: the escalation test of `on_user_speech_committed`
(intellizen_voicebot2.py, line 742): any of the three phrases inside
the lowercased utterance. -/
def escalationPhrase (content : String) : Bool :=
  strContains (pyLower content) "speak to human" ||
  strContains (pyLower content) "talk to agent" ||
  strContains (pyLower content) "agent please"

/-- Source: `on_user_speech_committed` (intellizen_voicebot2.py, lines
722-749).  The intent-classification block (lines 736-739) is commented
out in the source, so `detected_intent` is left untouched; the
escalation flag is set when a phrase matches and the utterance is
appended to the log. -/
def on_user_speech_committed (content : String) (s : SessionState) : SessionState :=
  { s with
    escalation_requested :=
      if escalationPhrase content then true else s.escalation_requested
    conversation_log := s.conversation_log ++ ["USER:\n" ++ content ++ "\n\n"] }

/-- Source: `on_agent_speech_committed` (intellizen_voicebot2.py, lines
751-754). -/
def on_agent_speech_committed (content : String) (s : SessionState) : SessionState :=
  { s with conversation_log := s.conversation_log ++ ["AGENT:\n" ++ content ++ "\n\n"] }

/-- Source: `on_participant_connected` (intellizen_voicebot2.py, lines
781-805): store the two SIP phone numbers and look the store profile up
from Redis, keyed by the callee (trunk) number. -/
def on_participant_connected (redis : String → List (String × String))
    (trunkPhoneNumber phoneNumber : Option String) (s : SessionState) : SessionState :=
  { s with
    called_number := trunkPhoneNumber
    caller_number := phoneNumber
    profile := get_store_from_redis redis trunkPhoneNumber }

/-- The session operations that can run after the participant has
connected: the two speech callbacks, the six LLM-callable
`ShopifyFunctions` handlers, and the shutdown logging.  The handlers
(intellizen_voicebot2.py, lines 158-662) read the store profile and
issue external requests but assign none of the session or store-profile
variables, and `transfer_to_agent`'s escalation update is commented out
(lines 646-649), so they leave the session state unchanged. -/
inductive SessionOp where
  | userSpeech (content : String)
  | agentSpeech (content : String)
  | getProductInformation (product_query : String)
  | getOrderStatus (order_id : Option String)
  | updateOrderCall (order_id : String) (a : ShopifyHandler.UpdateArgs)
  | cancelOrderCall (order_id : String) (reason : Option String)
  | getStoreInformation (specific_info : Option String)
  | transferToAgent (reason : Option String)
  | saveConversation
  deriving DecidableEq, Repr

/-- Effect of one session operation on the session state. -/
def applyOp (s : SessionState) : SessionOp → SessionState
  | .userSpeech c => on_user_speech_committed c s
  | .agentSpeech c => on_agent_speech_committed c s
  | .getProductInformation _ => s
  | .getOrderStatus _ => s
  | .updateOrderCall _ _ => s
  | .cancelOrderCall _ _ => s
  | .getStoreInformation _ => s
  | .transferToAgent _ => s
  | .saveConversation => s

/-- Embedding of `detected_intent` as persisted in the `Query_Type`
column (`None` becomes SQL NULL). -/
def optStrVal : Option String → DBVal
  | none => .null
  | some s => .str s

/-- Source: the `conversation_data` dictionary literal of
`save_conversation_to_db` (intellizen_voicebot2.py, lines 759-769):
the joined transcript, the constant user and store ids, session id and
start time, the within-day call duration (`timedelta.seconds`), the
escalation flag and the detected intent — and no `Call_Reason` key,
which is commented out at line 766. -/
def conversation_data (s : SessionState) (session_id : String)
    (session_start_time now : Nat) : List (String × DBVal) :=
  [("Conversation", .str (String.join s.conversation_log)),
   ("User_ID", .int 1),
   ("Store_ID", .int 1),
   ("Session_ID", .str session_id),
   ("Session_Time", .time session_start_time),
   ("Duration_of_Call", .int (((now - session_start_time) % 86400 : Nat))),
   ("Escalation", .bool s.escalation_requested),
   ("Query_Type", optStrVal s.detected_intent)]

/-- Source: the `parameters` dictionary of `insert_conversation_to_db`
(intellizen_voicebot2.py, lines 101-111): every one of the nine bound
columns is read from `conversation_data` by key, and a missing key
raises `KeyError`, embedded as `none`. -/
def buildParams (data : List (String × DBVal)) : Option (List (String × DBVal)) := do
  let c ← data.lookup "Conversation"
  let u ← data.lookup "User_ID"
  let sid ← data.lookup "Store_ID"
  let sess ← data.lookup "Session_ID"
  let stime ← data.lookup "Session_Time"
  let dur ← data.lookup "Duration_of_Call"
  let reason ← data.lookup "Call_Reason"
  let esc ← data.lookup "Escalation"
  let qt ← data.lookup "Query_Type"
  pure [("Conversation", c), ("User_ID", u), ("Store_ID", sid), ("Session_ID", sess),
        ("Session_Time", stime), ("Duration_of_Call", dur), ("Call_Reason", reason),
        ("Escalation", esc), ("Query_Type", qt)]

/-- Source: `insert_conversation_to_db` (intellizen_voicebot2.py, lines
83-120): no engine or any exception inside the `try` block (including
the `KeyError` of a missing `conversation_data` key) logs an error and
returns `False` with nothing written; otherwise the row is inserted and
committed. -/
def insert_conversation_to_db (engineOk : Bool)
    (table : List (List (String × DBVal)))
    (conversation_data : List (String × DBVal)) :
    Bool × List (List (String × DBVal)) :=
  if !engineOk then (false, table)
  else
    match buildParams conversation_data with
    | some row => (true, table ++ [row])
    | none => (false, table)

/-- Source: `save_conversation_to_db` (intellizen_voicebot2.py, lines
756-776), the shutdown callback: build the conversation data from the
final session state and hand it to the insert. -/
def save_conversation_to_db (s : SessionState) (session_id : String)
    (session_start_time now : Nat) (engineOk : Bool)
    (table : List (List (String × DBVal))) :
    Bool × List (List (String × DBVal)) :=
  insert_conversation_to_db engineOk table
    (conversation_data s session_id session_start_time now)

end Voicebot

/-! ## Claim C2 -/

/-- C2: the claim says exactly one row per call is written to the
Conversations table at call end; but the shutdown callback builds its
`conversation_data` without the `Call_Reason` key that
`insert_conversation_to_db` reads, so the insert raises `KeyError`
inside its `try` block, logs a database error and returns `False`: for
every session, zero rows are written. -/
theorem save_conversation_writes_no_row (s : Voicebot.SessionState)
    (session_id : String) (session_start_time now : Nat) (engineOk : Bool)
    (table : List (List (String × DBVal))) :
    (Voicebot.conversation_data s session_id session_start_time now).lookup
      "Call_Reason" = none ∧
    Voicebot.buildParams
      (Voicebot.conversation_data s session_id session_start_time now) = none ∧
    Voicebot.save_conversation_to_db s session_id session_start_time now engineOk
      table = (false, table) := by
  refine ⟨rfl, rfl, ?_⟩
  cases engineOk <;> rfl

/-! ## Claim C6 -/

/-- C6: the claim says the user-speech callback updates the session's
detected intent so that the persisted `Query_Type` reflects it; in the
source the classification call inside `on_user_speech_committed` is
commented out (intellizen_voicebot2.py, lines 736-739), so
`detected_intent` stays `None` through every sequence of session
operations and the `Query_Type` value of the conversation record is
always null. -/
theorem detected_intent_never_updated (ops : List Voicebot.SessionOp)
    (session_id : String) (session_start_time now : Nat) :
    (ops.foldl Voicebot.applyOp Voicebot.initialSession).detected_intent = none ∧
    (Voicebot.conversation_data (ops.foldl Voicebot.applyOp Voicebot.initialSession)
      session_id session_start_time now).lookup "Query_Type" = some DBVal.null := by
  have hstep : ∀ (t : Voicebot.SessionState) (op : Voicebot.SessionOp),
      (Voicebot.applyOp t op).detected_intent = t.detected_intent := by
    intro t op
    cases op <;> rfl
  have hfold : ∀ (l : List Voicebot.SessionOp) (t : Voicebot.SessionState),
      (l.foldl Voicebot.applyOp t).detected_intent = t.detected_intent := by
    intro l
    induction l with
    | nil => intro t; rfl
    | cons op rest ih => intro t; rw [List.foldl_cons, ih, hstep]
  have hnone : (ops.foldl Voicebot.applyOp Voicebot.initialSession).detected_intent = none :=
    hfold ops Voicebot.initialSession
  refine ⟨hnone, ?_⟩
  simp [Voicebot.conversation_data, Voicebot.optStrVal, hnone, List.lookup]

/-! ## Claim C8 -/

/-- C8: the store profile (store name, descriptive text, Shopify access
token, base URL) is looked up from Redis once when the participant
connects, keyed by the callee phone number, and no subsequent session
operation — speech callbacks, the Shopify/Qdrant function calls, or the
session logging — modifies it: after any sequence of operations the
profile is still exactly the Redis lookup result. -/
theorem store_profile_immutable_within_call
    (redis : String → List (String × String)) (trunk phone : Option String)
    (s : Voicebot.SessionState) (ops : List Voicebot.SessionOp) :
    (ops.foldl Voicebot.applyOp
        (Voicebot.on_participant_connected redis trunk phone s)).profile =
      Voicebot.get_store_from_redis redis trunk := by
  have hstep : ∀ (t : Voicebot.SessionState) (op : Voicebot.SessionOp),
      (Voicebot.applyOp t op).profile = t.profile := by
    intro t op
    cases op <;> rfl
  have hfold : ∀ (l : List Voicebot.SessionOp) (t : Voicebot.SessionState),
      (l.foldl Voicebot.applyOp t).profile = t.profile := by
    intro l
    induction l with
    | nil => intro t; rfl
    | cons op rest ih => intro t; rw [List.foldl_cons, ih, hstep]
  rw [hfold]
  rfl

/-! ## Claim C10 -/

/-- Whether a session operation triggers the escalation phrases. -/
def opEscalates : Voicebot.SessionOp → Bool
  | .userSpeech c => Voicebot.escalationPhrase c
  | _ => false

/-- C10: the escalation flag starts false, the user-speech callback
sets it to true exactly when the committed utterance contains one of
the phrases "speak to human", "talk to agent" or "agent please"
(case-insensitively), once true it is never reset by any later session
operation, and the value persisted in the `Escalation` column is the
final flag — true exactly when some utterance of the call matched. -/
theorem escalation_flag_monotone (s : Voicebot.SessionState)
    (ops : List Voicebot.SessionOp) (c : String) (session_id : String)
    (session_start_time now : Nat)
    (h : s.escalation_requested = true) :
    Voicebot.initialSession.escalation_requested = false ∧
    (Voicebot.applyOp s (.userSpeech c)).escalation_requested =
      (s.escalation_requested || Voicebot.escalationPhrase c) ∧
    (ops.foldl Voicebot.applyOp s).escalation_requested = true ∧
    (ops.foldl Voicebot.applyOp Voicebot.initialSession).escalation_requested =
      ops.any opEscalates ∧
    (Voicebot.conversation_data (ops.foldl Voicebot.applyOp Voicebot.initialSession)
        session_id session_start_time now).lookup "Escalation" =
      some (.bool (ops.any opEscalates)) := by
  have hspeech : ∀ (t : Voicebot.SessionState) (u : String),
      (Voicebot.applyOp t (.userSpeech u)).escalation_requested =
        (t.escalation_requested || Voicebot.escalationPhrase u) := by
    intro t u
    by_cases hp : Voicebot.escalationPhrase u <;>
      simp [Voicebot.applyOp, Voicebot.on_user_speech_committed, hp]
  have hfold : ∀ (l : List Voicebot.SessionOp) (t : Voicebot.SessionState),
      (l.foldl Voicebot.applyOp t).escalation_requested =
        (t.escalation_requested || l.any opEscalates) := by
    intro l
    induction l with
    | nil => intro t; simp
    | cons op rest ih =>
      intro t
      rw [List.foldl_cons, ih]
      cases op <;>
        simp [Voicebot.applyOp, Voicebot.on_user_speech_committed,
          Voicebot.on_agent_speech_committed, opEscalates, Bool.or_assoc] <;>
        first
        | rfl
        | (rename_i u
           by_cases hp : Voicebot.escalationPhrase u <;> simp [hp, Bool.or_assoc])
  have hfinal := hfold ops Voicebot.initialSession
  have hfinal' : (ops.foldl Voicebot.applyOp Voicebot.initialSession).escalation_requested =
      ops.any opEscalates := by
    simpa [Voicebot.initialSession] using hfinal
  refine ⟨rfl, hspeech s c, ?_, hfinal', ?_⟩
  · rw [hfold, h]
    rfl
  · simp [Voicebot.conversation_data, List.lookup, hfinal']

/-- Witness for the C10 theorem: a session whose flag is already set
keeps it set across a further agent utterance. -/
theorem escalation_flag_monotone_witness :
    (([Voicebot.SessionOp.agentSpeech "Connecting you now"]).foldl Voicebot.applyOp
      { Voicebot.initialSession with escalation_requested := true }).escalation_requested =
      true := by
  have h := escalation_flag_monotone
    { Voicebot.initialSession with escalation_requested := true }
    [Voicebot.SessionOp.agentSpeech "Connecting you now"]
    "agent please" "session_1" 0 60 rfl
  exact h.2.2.1
